import Mathlib

/-!
Verification of the event normalization and storage core of the AI-calendar
web application.

The development is a shallow embedding of:
* the category → colour table and the `POST` handler of the OpenAI route
  (`app/api/openai/route.ts`),
* the `GET`/`POST` handlers of the events store route
  (`app/api/events/route.ts`),
* the client-side submission guard `handleSubmit` of the input form.

External effects are explicit parameters: the completion service's reply is
the `tool_calls` list handed to the handler, and `storeOk` says whether the
handler's internal fetch to the events route reaches the store.  JS builtins
(`JSON.parse`, `new Date`) are modelled by small total functions documented
at their definitions.
-/

namespace AICalendar

/-- Model of a JS `Date` value as produced by `new Date(x)` in the events
route: either a valid UTC instant (year, month, day, hour, minute, second)
or the JS `Invalid Date`.  Ordering of valid instants is lexicographic on
the six fields, which agrees with epoch-millisecond order for in-range UTC
instants. -/
inductive DateVal where
  | valid (year month day hour minute second : Nat)
  | invalid
deriving DecidableEq, Repr

/-- Numeric value of a decimal digit character; `none` on other characters. -/
def digitVal (c : Char) : Option Nat :=
  if c.isDigit then some (c.toNat - 48) else none

/-- Two decimal digit characters read as a number below 100. -/
def twoDigits (a b : Char) : Option Nat := do
  let x ← digitVal a
  let y ← digitVal b
  pure (x * 10 + y)

/-- Model of the JS `Date` constructor on strings, restricted to the strict
ISO-8601 UTC shape `YYYY-MM-DDTHH:MM:SSZ` that this application exchanges;
every other string is modelled as `Invalid Date`. -/
def parseISO (s : String) : DateVal :=
  match s.toList with
  | [y1, y2, y3, y4, '-', m1, m2, '-', d1, d2, 'T',
     h1, h2, ':', n1, n2, ':', s1, s2, 'Z'] =>
    (do
      let yhi ← twoDigits y1 y2
      let ylo ← twoDigits y3 y4
      let mo ← twoDigits m1 m2
      let d ← twoDigits d1 d2
      let h ← twoDigits h1 h2
      let mi ← twoDigits n1 n2
      let se ← twoDigits s1 s2
      pure (DateVal.valid (yhi * 100 + ylo) mo d h mi se)).getD .invalid
  | _ => .invalid

/-- `new Date(x)` applied to a possibly absent field of a parsed JSON body:
`new Date(undefined)` is `Invalid Date`. -/
def jsDate : Option String → DateVal
  | none => .invalid
  | some s => parseISO s

/-- Time-value key of a date: order-isomorphic to epoch milliseconds on the
instants exchanged here (each field is two-digit bounded); `none` models the
`NaN` time value of `Invalid Date`. -/
def DateVal.key : DateVal → Option Nat
  | .valid y mo d h mi s =>
      some (((((y * 100 + mo) * 100 + d) * 100 + h) * 100 + mi) * 100 + s)
  | .invalid => none

/-- JS `<` on `Date` values: numeric comparison of time values; every
comparison involving `Invalid Date` (time value `NaN`) is false. -/
def dateLt (a b : DateVal) : Bool :=
  match a.key, b.key with
  | some x, some y => x < y
  | _, _ => false

/-- Value obtained by reading a property of a JS object: a string value, a
function inherited from `Object.prototype`, the prototype object returned by
the inherited `__proto__` accessor, the empty object that the prototype
object serializes to, or `undefined` for an absent property. -/
inductive JsValue where
  | str (s : String)
  | fn
  | protoObj
  | emptyObj
  | undefined
deriving DecidableEq, Repr

/-- JS truthiness of a read property value: `undefined` is falsy, a string is
truthy unless empty, functions and objects are truthy. -/
def JsValue.truthy : JsValue → Bool
  | .str s => s != ""
  | .fn => true
  | .protoObj => true
  | .emptyObj => true
  | .undefined => false

/-- The JS `||` operator on read property values. -/
def jsOr (a b : JsValue) : JsValue :=
  if a.truthy then a else b

/-- Function-valued members every object literal inherits from
`Object.prototype` (ECMA-262): bracket access with these names finds the
inherited function. -/
def objectPrototypeFnMembers : List String :=
  ["constructor", "hasOwnProperty", "isPrototypeOf", "propertyIsEnumerable",
   "toLocaleString", "toString", "valueOf",
   "__defineGetter__", "__defineSetter__", "__lookupGetter__", "__lookupSetter__"]

/-- All member names an object literal inherits from `Object.prototype`: the
function-valued members plus the `__proto__` accessor (whose read yields the
prototype object itself). -/
def objectPrototypeMembers : List String :=
  objectPrototypeFnMembers ++ ["__proto__"]

/-- `EVENT_TYPE_COLORS[k]` of the OpenAI route: bracket access on the fixed
category → hex-colour object literal.  The lookup first finds the seven own
properties, otherwise walks the prototype chain: names of inherited
`Object.prototype` members yield the inherited (truthy) member, and only the
remaining strings yield `undefined`. -/
def EVENT_TYPE_COLORS (k : String) : JsValue :=
  if k = "lecture" then .str "#3B82F6"
  else if k = "tutorial" then .str "#10B981"
  else if k = "club" then .str "#8B5CF6"
  else if k = "social" then .str "#EC4899"
  else if k = "exam" then .str "#EF4444"
  else if k = "assignment" then .str "#F59E0B"
  else if k = "other" then .str "#6B7280"
  else if k ∈ objectPrototypeFnMembers then .fn
  else if k = "__proto__" then .protoObj
  else .undefined

/-- The colour attached by the handler:
`EVENT_TYPE_COLORS[eventType as keyof typeof EVENT_TYPE_COLORS] || EVENT_TYPE_COLORS.other`. -/
def colorFor (eventType : String) : JsValue :=
  jsOr (EVENT_TYPE_COLORS eventType) (EVENT_TYPE_COLORS "other")

/-- Effect of the JSON round trip (`JSON.stringify` of the fetch body, then
`req.json()` at the events route) on a property value: function values are
dropped, so the property arrives as `undefined`; the prototype object
serializes to an empty object; strings survive unchanged. -/
def jsonRoundTrip : JsValue → JsValue
  | .str s => .str s
  | .fn => .undefined
  | .protoObj => .emptyObj
  | .emptyObj => .emptyObj
  | .undefined => .undefined

/-- Fields of the object produced by parsing the structured arguments: the
candidate event proposed by the completion service (`title`, `start`, `end`,
`description`, each possibly absent). -/
structure EventData where
  title : Option String
  start : Option String
  «end» : Option String
  description : Option String
deriving DecidableEq, Repr

/-- Model of the JS string value `toolCall.function.arguments`: a JS-falsy
value (absent or the empty string), a text that `JSON.parse` maps to an
object with the candidate event fields, or a text on which `JSON.parse`
throws. -/
inductive ArgsText where
  | falsy
  | jsonObject (fields : EventData)
  | invalid
deriving DecidableEq, Repr

/-- The `function` member of a tool call, carrying the arguments text. -/
structure ToolFunction where
  arguments : ArgsText
deriving DecidableEq, Repr

/-- One element of `chat.choices[0].message.tool_calls`. -/
structure ToolCall where
  function : ToolFunction
deriving DecidableEq, Repr

/-- Line `const eventData = JSON.parse(toolCall.function.arguments || '{}')`:
a falsy arguments value is replaced by the text of the empty object, which
parses to an object with every candidate field absent; on invalid JSON,
`JSON.parse` throws. -/
def parseArguments : ArgsText → Except Unit EventData
  | .falsy => .ok { title := none, start := none, «end» := none, description := none }
  | .jsonObject fields => .ok fields
  | .invalid => .error ()

/-- `enhancedEventData`: the spread of the parsed proposal plus `eventType`,
`color` and `resource`. -/
structure EnhancedEvent where
  title : Option String
  start : Option String
  «end» : Option String
  description : Option String
  eventType : String
  color : JsValue
  resource : String
deriving DecidableEq, Repr

/-- Construction of `enhancedEventData` from the parsed proposal and the
resolved event type. -/
def enhance (eventData : EventData) (eventType : String) : EnhancedEvent :=
  { title := eventData.title, start := eventData.start,
    «end» := eventData.«end», description := eventData.description,
    eventType := eventType, color := colorFor eventType,
    resource := eventType }

/-- An element of the events route's `EVENTS` array: the POSTed body with
`start` and `end` replaced by `new Date(...)` values. -/
structure StoredEvent where
  title : Option String
  description : Option String
  start : DateVal
  «end» : DateVal
  eventType : String
  color : JsValue
  resource : String
deriving DecidableEq, Repr

/-- The record pushed by the events route for a given POSTed body.  The body
crossed a JSON boundary (`JSON.stringify` at the OpenAI route, `req.json()`
here), so the colour value undergoes the JSON round trip. -/
def storedOf (data : EnhancedEvent) : StoredEvent :=
  { title := data.title, description := data.description,
    start := jsDate data.start, «end» := jsDate data.«end»,
    eventType := data.eventType, color := jsonRoundTrip data.color,
    resource := data.resource }

/-- `POST /api/events`:
`EVENTS.push({ ...data, start: new Date(data.start), end: new Date(data.end) })`. -/
def eventsPOST (data : EnhancedEvent) (EVENTS : List StoredEvent) : List StoredEvent :=
  EVENTS ++ [storedOf data]

/-- `GET /api/events`: returns the whole `EVENTS` array in insertion order. -/
def eventsGET (EVENTS : List StoredEvent) : List StoredEvent :=
  EVENTS

/-- Outcome of the OpenAI route handler as seen by its caller: the JSON body
of a success response, an explicit error response with a status code, or an
uncaught exception escaping the handler. -/
inductive OpenAIResult where
  | ok (event : EnhancedEvent)
  | errorResponse (msg : String) (status : Nat)
  | thrown
deriving DecidableEq, Repr

/-- One run of `POST /api/openai`: the response handed back, the number of
completion-service calls made, and the events store after the run. -/
structure RouteRun where
  result : OpenAIResult
  upstreamCalls : Nat
  store : List StoredEvent
deriving DecidableEq, Repr

/-- `POST /api/openai`.  The body is destructured as
`{ prompt, eventType = 'other' }`; the completion call is made before any
check, so every run counts one upstream call; if the reply carries no tool
call the handler returns the 400 response; parsing the arguments either
throws or yields `eventData`; `enhancedEventData` is then built, forwarded
to the events route (whose response `res` is never inspected — `storeOk`
says whether that fetch reached the store), and returned. -/
def openaiPOST (prompt : String) (eventType : Option String)
    (tool_calls : List ToolCall) (storeOk : Bool)
    (EVENTS : List StoredEvent) : RouteRun :=
  let et := eventType.getD "other"
  match tool_calls.head? with
  | none =>
      { result := .errorResponse "No function call" 400,
        upstreamCalls := 1, store := EVENTS }
  | some toolCall =>
    match parseArguments toolCall.function.arguments with
    | .error _ => { result := .thrown, upstreamCalls := 1, store := EVENTS }
    | .ok eventData =>
      let enhancedEventData := enhance eventData et
      { result := .ok enhancedEventData, upstreamCalls := 1,
        store := if storeOk then eventsPOST enhancedEventData EVENTS else EVENTS }

/-- Model of the JS `String.prototype.trim` builtin: whitespace characters
are stripped from both ends. -/
def jsTrim (s : String) : String :=
  ⟨(((s.toList.dropWhile Char.isWhitespace).reverse.dropWhile
      Char.isWhitespace).reverse)⟩

/-- One client submission: `response` is `none` when `handleSubmit` returned
early without issuing any request at all. -/
structure SubmitRun where
  response : Option OpenAIResult
  upstreamCalls : Nat
  store : List StoredEvent
deriving DecidableEq, Repr

/-- `handleSubmit` of the input form: `if (!input.trim()) return;`, otherwise
POST `{ prompt: input, eventType: selectedType }` to the OpenAI route. -/
def handleSubmit (input : String) (selectedType : String)
    (tool_calls : List ToolCall) (storeOk : Bool)
    (EVENTS : List StoredEvent) : SubmitRun :=
  if jsTrim input = "" then
    { response := none, upstreamCalls := 0, store := EVENTS }
  else
    let run := openaiPOST input (some selectedType) tool_calls storeOk EVENTS
    { response := some run.result, upstreamCalls := run.upstreamCalls,
      store := run.store }

/-- Every run of the OpenAI route handler makes exactly one completion call:
the call is issued before any validation of the reply. -/
theorem openaiPOST_upstreamCalls (prompt : String) (eventType : Option String)
    (tool_calls : List ToolCall) (storeOk : Bool) (st : List StoredEvent) :
    (openaiPOST prompt eventType tool_calls storeOk st).upstreamCalls = 1 := by
  rcases tool_calls with _ | ⟨tc, rest⟩
  · rfl
  · rcases tc with ⟨⟨args⟩⟩
    rcases args with _ | ed | _ <;> rfl

/-- A sample previously stored event, used as a non-empty prior store state
in witnesses. -/
def sampleStored : StoredEvent :=
  { title := some "Old event", description := none,
    start := DateVal.valid 2025 7 1 9 0 0, «end» := DateVal.valid 2025 7 1 10 0 0,
    eventType := "other", color := JsValue.str "#6B7280", resource := "other" }

/-- Claim C1 (counterexample): a valid upstream proposal with `end` absent is
returned by the handler with `end` still absent — it is not set to `start`
plus the category default duration (one hour for a lecture), contradicting
the claim that `end` is never left undefined. -/
theorem c1_counterexample :
    (openaiPOST "Math lecture tomorrow at 9am" (some "lecture")
        [{ function := { arguments := ArgsText.jsonObject ⟨some "Math lecture", some "2025-07-29T09:00:00Z", none, none⟩ } }]
        true []).result
      = OpenAIResult.ok
          { title := some "Math lecture", start := some "2025-07-29T09:00:00Z",
            «end» := none, description := none, eventType := "lecture",
            color := JsValue.str "#3B82F6", resource := "lecture" } := by
  rfl

/-- Claim C1 (amended): the handler never derives `end`; the proposal's
`start` and `end` are passed through unchanged (an absent `end` stays
absent), the default-duration policy existing only as guidance text in the
prompt sent to the completion service. -/
theorem c1_amended (prompt : String) (eventType : Option String) (ed : EventData)
    (storeOk : Bool) (st : List StoredEvent) :
    (openaiPOST prompt eventType [{ function := { arguments := .jsonObject ed } }]
        storeOk st).result
      = .ok (enhance ed (eventType.getD "other"))
    ∧ (enhance ed (eventType.getD "other")).«end» = ed.«end»
    ∧ (enhance ed (eventType.getD "other")).start = ed.start :=
  ⟨rfl, rfl, rfl⟩

/-- Claim C2 (counterexample): an empty submission is dropped silently by the
client guard — no response of any kind, hence no `EmptyInput` failure, is
produced — while the API route itself, reached directly with an empty
prompt, still makes one upstream completion call rather than zero. -/
theorem c2_counterexample :
    (handleSubmit "" "lecture" [] true []).response = none
    ∧ (openaiPOST "" (some "lecture") [] true []).upstreamCalls = 1 := by
  exact ⟨by decide, rfl⟩

/-- Claim C2 (amended): for input that is empty after trimming, `handleSubmit`
returns early: zero upstream calls, no response (so no `EmptyInput` error is
surfaced), and the store untouched; the API route itself performs no
emptiness check and always makes one upstream call. -/
theorem c2_amended (input selectedType : String) (tool_calls : List ToolCall)
    (storeOk : Bool) (st : List StoredEvent) (h : jsTrim input = "") :
    (handleSubmit input selectedType tool_calls storeOk st).upstreamCalls = 0
    ∧ (handleSubmit input selectedType tool_calls storeOk st).response = none
    ∧ (handleSubmit input selectedType tool_calls storeOk st).store = st
    ∧ (openaiPOST input (some selectedType) tool_calls storeOk st).upstreamCalls = 1 := by
  refine ⟨?_, ?_, ?_, openaiPOST_upstreamCalls _ _ _ _ _⟩ <;> simp [handleSubmit, h]

/-- Claim C2 (witness): the amended statement at the empty input. -/
theorem c2_witness :
    jsTrim "" = ""
    ∧ ((handleSubmit "" "social" [] true [sampleStored]).upstreamCalls = 0
       ∧ (handleSubmit "" "social" [] true [sampleStored]).response = none
       ∧ (handleSubmit "" "social" [] true [sampleStored]).store = [sampleStored]
       ∧ (openaiPOST "" (some "social") [] true [sampleStored]).upstreamCalls = 1) :=
  ⟨by decide, c2_amended "" "social" [] true [sampleStored] (by decide)⟩

/-- Claim C3: when the upstream reply carries no structured function call the
handler returns the 400 "No function call" error response (the
`NoStructuredOutput` failure), no event is created, and the store read
afterwards is exactly what it was before. -/
theorem c3_noStructuredOutput (prompt : String) (eventType : Option String)
    (tool_calls : List ToolCall) (storeOk : Bool) (st : List StoredEvent)
    (h : tool_calls.head? = none) :
    (openaiPOST prompt eventType tool_calls storeOk st).result
      = .errorResponse "No function call" 400
    ∧ eventsGET (openaiPOST prompt eventType tool_calls storeOk st).store
      = eventsGET st := by
  rcases tool_calls with _ | ⟨tc, rest⟩
  · exact ⟨rfl, rfl⟩
  · simp at h

/-- Claim C3 (witness): the claim at a concrete reply with no tool call and a
non-empty prior store. -/
theorem c3_witness :
    (([] : List ToolCall).head? = none)
    ∧ ((openaiPOST "exam review session" (some "exam") [] true [sampleStored]).result
        = .errorResponse "No function call" 400
       ∧ eventsGET (openaiPOST "exam review session" (some "exam") [] true
            [sampleStored]).store = eventsGET [sampleStored]) :=
  ⟨rfl, c3_noStructuredOutput "exam review session" (some "exam") [] true [sampleStored] rfl⟩

/-- Claim C4 (counterexample): the category string "toString" — outside the
seven enumerated categories — resolves via the prototype chain to the
inherited `Object.prototype.toString` function: the value is truthy, so the
`||` fallback to the `other` colour never fires, the resolved colour is not
a value of the fixed table, and after the JSON round trip to the events
store the stored event's colour is `undefined`. -/
theorem c4_counterexample :
    colorFor "toString" = JsValue.fn
    ∧ colorFor "toString" ≠ JsValue.str "#6B7280"
    ∧ jsonRoundTrip (colorFor "toString") = JsValue.undefined
    ∧ (openaiPOST "club fair" (some "toString")
        [{ function := { arguments := ArgsText.jsonObject ⟨some "Club fair", some "2025-07-29T15:00:00Z", some "2025-07-29T16:00:00Z", none⟩ } }]
        true []).store
      = [{ title := some "Club fair", description := none,
           start := DateVal.valid 2025 7 29 15 0 0,
           «end» := DateVal.valid 2025 7 29 16 0 0,
           eventType := "toString", color := JsValue.undefined,
           resource := "toString" }] := by
  refine ⟨by decide, by decide, by decide, by decide⟩

/-- Claim C4 (amended): for every category string that is not a member name
inherited from `Object.prototype`, the resolved colour is one of the seven
fixed hex colours, strings outside the seven categories fall back to the
`other` colour, and the colour survives JSON serialization; for the twelve
inherited member names the lookup instead finds the truthy inherited member,
so the fallback never fires and the resolved value is not from the table. -/
theorem c4_amended (eventType : String)
    (h : eventType ∉ objectPrototypeMembers) :
    colorFor eventType ∈ [JsValue.str "#3B82F6", JsValue.str "#10B981",
        JsValue.str "#8B5CF6", JsValue.str "#EC4899", JsValue.str "#EF4444",
        JsValue.str "#F59E0B", JsValue.str "#6B7280"]
    ∧ (eventType ∉ ["lecture", "tutorial", "club", "social", "exam",
        "assignment", "other"] → colorFor eventType = JsValue.str "#6B7280")
    ∧ jsonRoundTrip (colorFor eventType) = colorFor eventType := by
  have h1 : eventType ∉ objectPrototypeFnMembers := fun hm =>
    h (by simp [objectPrototypeMembers, hm])
  have h2 : ¬ eventType = "__proto__" := fun hm =>
    h (by simp [objectPrototypeMembers, hm])
  by_cases e1 : eventType = "lecture"
  · subst e1; exact ⟨by decide, by decide, by decide⟩
  by_cases e2 : eventType = "tutorial"
  · subst e2; exact ⟨by decide, by decide, by decide⟩
  by_cases e3 : eventType = "club"
  · subst e3; exact ⟨by decide, by decide, by decide⟩
  by_cases e4 : eventType = "social"
  · subst e4; exact ⟨by decide, by decide, by decide⟩
  by_cases e5 : eventType = "exam"
  · subst e5; exact ⟨by decide, by decide, by decide⟩
  by_cases e6 : eventType = "assignment"
  · subst e6; exact ⟨by decide, by decide, by decide⟩
  by_cases e7 : eventType = "other"
  · subst e7; exact ⟨by decide, by decide, by decide⟩
  have hE : EVENT_TYPE_COLORS eventType = .undefined := by
    simp [EVENT_TYPE_COLORS, e1, e2, e3, e4, e5, e6, e7, h1, h2]
  have hc : colorFor eventType = .str "#6B7280" := by
    unfold colorFor jsOr
    rw [hE]
    decide
  simp [hc, jsonRoundTrip]

/-- Claim C4 (witness): the amended statement at a string outside both the
seven categories and the inherited member names. -/
theorem c4_witness :
    "banquet" ∉ objectPrototypeMembers
    ∧ (colorFor "banquet" ∈ [JsValue.str "#3B82F6", JsValue.str "#10B981",
        JsValue.str "#8B5CF6", JsValue.str "#EC4899", JsValue.str "#EF4444",
        JsValue.str "#F59E0B", JsValue.str "#6B7280"]
       ∧ ("banquet" ∉ ["lecture", "tutorial", "club", "social", "exam",
          "assignment", "other"] → colorFor "banquet" = JsValue.str "#6B7280")
       ∧ jsonRoundTrip (colorFor "banquet") = colorFor "banquet") :=
  ⟨by decide, c4_amended "banquet" (by decide)⟩

/-- Claim C5: for a non-empty request and a valid structured proposal with
`start` earlier than `end`, the handler returns the event with exactly the
caller-supplied category, the fixed colour for that category, and the
proposal's `start` and `end` unchanged. -/
theorem c5_preserve (prompt category : String) (ed : EventData)
    (t ss es : String) (storeOk : Bool) (st : List StoredEvent)
    (hp : jsTrim prompt ≠ "")
    (ht : ed.title = some t) (hs : ed.start = some ss) (he : ed.«end» = some es)
    (hlt : dateLt (parseISO ss) (parseISO es) = true) :
    (openaiPOST prompt (some category)
        [{ function := { arguments := .jsonObject ed } }] storeOk st).result
      = .ok { title := ed.title, start := some ss, «end» := some es,
              description := ed.description, eventType := category,
              color := colorFor category, resource := category } := by
  simp [openaiPOST, parseArguments, enhance, hs, he]

/-- Claim C5 (witness): the preservation statement at the end-to-end scenario
of the specification. -/
theorem c5_witness :
    jsTrim "Coffee with Sam tomorrow at 3pm" ≠ ""
    ∧ dateLt (parseISO "2025-07-29T15:00:00Z") (parseISO "2025-07-29T15:30:00Z") = true
    ∧ (openaiPOST "Coffee with Sam tomorrow at 3pm" (some "social")
        [{ function := { arguments := ArgsText.jsonObject ⟨some "Coffee with Sam", some "2025-07-29T15:00:00Z", some "2025-07-29T15:30:00Z", some "Coffee meetup"⟩ } }] true []).result
      = .ok { title := some "Coffee with Sam", start := some "2025-07-29T15:00:00Z",
              «end» := some "2025-07-29T15:30:00Z", description := some "Coffee meetup",
              eventType := "social", color := colorFor "social", resource := "social" } :=
  ⟨by decide, by decide,
    c5_preserve "Coffee with Sam tomorrow at 3pm" "social"
      ⟨some "Coffee with Sam", some "2025-07-29T15:00:00Z",
       some "2025-07-29T15:30:00Z", some "Coffee meetup"⟩
      "Coffee with Sam" "2025-07-29T15:00:00Z" "2025-07-29T15:30:00Z" true []
      (by decide) rfl rfl rfl (by decide)⟩

/-- Claim C6 (counterexample): a run of the handler with a proposal whose
`end` date is strictly earlier than its `start` date succeeds and stores the
event as-is, reaching a store state that violates the end-not-earlier-than-
start invariant. -/
theorem c6_counterexample :
    (openaiPOST "final review" (some "exam")
        [{ function := { arguments := ArgsText.jsonObject ⟨some "Final review", some "2025-01-02T00:00:00Z", some "2025-01-01T00:00:00Z", none⟩ } }]
        true []).store
      = [{ title := some "Final review", description := none,
           start := DateVal.valid 2025 1 2 0 0 0,
           «end» := DateVal.valid 2025 1 1 0 0 0,
           eventType := "exam", color := JsValue.str "#EF4444",
           resource := "exam" }]
    ∧ dateLt (DateVal.valid 2025 1 1 0 0 0) (DateVal.valid 2025 1 2 0 0 0) = true := by
  exact ⟨by decide, by decide⟩

/-- Claim C6 (amended): neither route validates the order of `start` and
`end`; the stored event's dates are exactly `new Date` of the proposal's
strings, so the invariant holds only for proposals that already satisfy
it. -/
theorem c6_amended (prompt : String) (eventType : Option String) (ed : EventData)
    (st : List StoredEvent) :
    (openaiPOST prompt eventType [{ function := { arguments := .jsonObject ed } }]
        true st).store
      = st ++ [{ title := ed.title, description := ed.description,
                 start := jsDate ed.start, «end» := jsDate ed.«end»,
                 eventType := eventType.getD "other",
                 color := jsonRoundTrip (colorFor (eventType.getD "other")),
                 resource := eventType.getD "other" }] :=
  rfl

/-- Folding the events-route POST over a list of bodies appends their stored
records in order. -/
theorem eventsGET_foldl (ds : List EnhancedEvent) (st : List StoredEvent) :
    eventsGET (ds.foldl (fun s d => eventsPOST d s) st)
      = eventsGET st ++ ds.map storedOf := by
  induction ds generalizing st with
  | nil => simp [eventsGET]
  | cons d ds ih =>
      simp only [List.foldl_cons, ih, List.map_cons]
      simp [eventsGET, eventsPOST]

/-- Claim C7: pushing an event and then reading the store yields a sequence
whose last element is the stored record of the pushed body and whose length
grew by exactly one, and a sequence of pushes is read back in insertion
order. -/
theorem c7_append_listAll (data : EnhancedEvent) (st : List StoredEvent)
    (ds : List EnhancedEvent) :
    (eventsGET (eventsPOST data st)).getLast? = some (storedOf data)
    ∧ (eventsGET (eventsPOST data st)).length = (eventsGET st).length + 1
    ∧ eventsGET (ds.foldl (fun s d => eventsPOST d s) st)
      = eventsGET st ++ ds.map storedOf := by
  refine ⟨?_, ?_, eventsGET_foldl ds st⟩
  · simp [eventsGET, eventsPOST]
  · simp [eventsGET, eventsPOST]

/-- Claim C8 (counterexample): a tool call whose arguments text is not valid
JSON makes `JSON.parse` throw out of the handler — the uncaught-exception
outcome, not a structured `MalformedResponse` error response — though no
event is created. -/
theorem c8_counterexample :
    (openaiPOST "team dinner friday" (some "social")
        [{ function := { arguments := ArgsText.invalid } }] true []).result
      = OpenAIResult.thrown
    ∧ (openaiPOST "team dinner friday" (some "social")
        [{ function := { arguments := ArgsText.invalid } }] true []).store
      = [] :=
  ⟨rfl, rfl⟩

/-- Claim C8 (amended): malformed arguments JSON makes the handler throw —
an unhandled crash, there being no try/catch — rather than return a
structured error response; no event is created and the store is unchanged. -/
theorem c8_amended (prompt : String) (eventType : Option String) (storeOk : Bool)
    (st : List StoredEvent) :
    (openaiPOST prompt eventType [{ function := { arguments := .invalid } }]
        storeOk st).result = .thrown
    ∧ eventsGET (openaiPOST prompt eventType
        [{ function := { arguments := .invalid } }] storeOk st).store
      = eventsGET st :=
  ⟨rfl, rfl⟩

/-- Claim C9: the handler's response never depends on the outcome of the
storage fetch, and when that fetch does not reach the store the handler
still reports the enhanced event as success while the store is unchanged. -/
theorem c9_storeResponseIgnored (prompt : String) (eventType : Option String)
    (tool_calls : List ToolCall) (storeOk storeOk' : Bool) (ed : EventData)
    (st : List StoredEvent) :
    (openaiPOST prompt eventType tool_calls storeOk st).result
      = (openaiPOST prompt eventType tool_calls storeOk' st).result
    ∧ (openaiPOST prompt eventType [{ function := { arguments := .jsonObject ed } }]
        false st).result = .ok (enhance ed (eventType.getD "other"))
    ∧ (openaiPOST prompt eventType [{ function := { arguments := .jsonObject ed } }]
        false st).store = st := by
  refine ⟨?_, rfl, rfl⟩
  rcases tool_calls with _ | ⟨tc, rest⟩
  · rfl
  · rcases tc with ⟨⟨args⟩⟩
    rcases args with _ | ed' | _ <;> rfl

/-- Claim C10: a tool call whose arguments text is falsy (absent or empty) is
replaced by the empty object: the handler succeeds, returning an event with
`title`, `start` and `end` all absent, and the store gains an event whose
`start` and `end` are `Invalid Date`. -/
theorem c10_emptyArguments (prompt : String) (eventType : Option String)
    (st : List StoredEvent) :
    (openaiPOST prompt eventType [{ function := { arguments := .falsy } }]
        true st).result
      = .ok { title := none, start := none, «end» := none, description := none,
              eventType := eventType.getD "other",
              color := colorFor (eventType.getD "other"),
              resource := eventType.getD "other" }
    ∧ (openaiPOST prompt eventType [{ function := { arguments := .falsy } }]
        true st).store
      = st ++ [{ title := none, description := none,
                 start := DateVal.invalid, «end» := DateVal.invalid,
                 eventType := eventType.getD "other",
                 color := jsonRoundTrip (colorFor (eventType.getD "other")),
                 resource := eventType.getD "other" }] :=
  ⟨rfl, rfl⟩

end AICalendar
